import Mathlib

/-!
Verification of the `suss` service-activation library (`src/lib.rs`).

The library discovers or on-demand starts singleton services that listen on
Unix-domain sockets under a base context directory.  We shallowly embed the
control flow of the four operations the claims are about:

* `connect_to_running_service` (discovery),
* `connect_to_service` (discovery + activation with an ephemeral liveness
  socket),
* `ServerService.try_and_open_raw_socket` (server-side bind), and
* `ServerService.run_server` (server hosting with optional liveness ping),

plus the ephemeral path generator `get_random_sockpath`.

Every externally determined I/O outcome (raw connect, bind, accepted
connection, shutdown, spawn) is supplied by a "world" record, and each
embedded operation returns its `Except` result together with a trace of
effect events, mirroring the order in which the Rust code performs the
effects, including the deletions performed when `CleanablePathBuf` values
are dropped.

The repository declares modules `cleanable_path`, `socket_shims`, `mapfut`
and `timefut` whose sources are not present under `src/`; their behaviour is
modelled from the specification (see the doc comments on `Event.unlink` and
on the `accept` field of `ActivationWorld`).
-/

namespace Suss

/-- Filesystem paths, modelled as plain strings. -/
abbrev Path := String

/-- `PathBuf::join` / `PathBuf::push`: appends a component after a separator. -/
def joinPath (base : Path) (name : String) : Path := base ++ "/" ++ name

/-- Durations (the unit is irrelevant to the claims). -/
abbrev Duration := Nat

/-- The kind of an `std::io::Error`; only `TimedOut` is distinguished by the
code, all other kinds are abstracted by a numeric code. -/
inductive IoErrorKind where
  | timedOut
  | other (code : Nat)
deriving DecidableEq, Repr

/-- An `std::io::Error`: a kind plus, when the error is the timeout error the
library itself constructs, the configured duration embedded in its message. -/
structure IoError where
  kind : IoErrorKind
  payload : Option Duration
deriving DecidableEq, Repr

/-- Raw (async or std) unix streams, abstracted by an identifier. -/
abbrev Stream := Nat

/-- Raw unix listeners, abstracted by an identifier. -/
abbrev Listener := Nat

/-- `std::process::Child` handles, abstracted by an identifier. -/
abbrev Child := Nat

/-- Effect events, in the order the code performs them.

The constructors `killChild` and `waitChild` are part of the vocabulary so
that "the child is never terminated or waited on" is statable; the embedded
code never emits them, exactly as the source never calls `Child::kill` or
`Child::wait`. -/
inductive Event where
  /-- `us_connect`: a raw connect attempt to the given socket path. -/
  | rawConnect (path : Path)
  /-- `wrap_connection` invoked on a converted std stream. -/
  | wrapConn (s : Stream)
  /-- A raw bind attempt (`ul_bind` / `UnixListener::bind`) at the path. -/
  | bindListener (path : Path)
  /-- `run_service_command_raw` invoked with the given liveness path. -/
  | launch (pfx : Option (List String)) (liveness : Option Path)
  /-- Waiting (with timeout) for one inbound connection on the ephemeral
  listener. -/
  | acceptWait
  /-- `us_shutdown` invoked on a stream. -/
  | shutdownStream (s : Stream)
  /-- `after_post_liveness_subprocess` invoked on the child handle. -/
  | afterLiveness (c : Child)
  /-- `Child::kill` (never emitted by this library). -/
  | killChild (c : Child)
  /-- `Child::wait` (never emitted by this library). -/
  | waitChild (c : Child)
  /-- Modelled from the spec: the `cleanable_path` module is missing from
  `src/`; per the specification a scoped path wrapper (`CleanablePathBuf`)
  attempts best-effort deletion of its file when it is released, on every
  exit path.  This event records that deletion attempt. -/
  | unlink (path : Path)
  /-- The server body (`the_service_function`) invoked by `run_server`. -/
  | runBody
deriving DecidableEq, Repr

/-- Number of `launch` events in a trace (subprocess spawn attempts). -/
def launches : List Event → Nat
  | [] => 0
  | Event.launch _ _ :: rest => launches rest + 1
  | _ :: rest => launches rest

/-- Number of `rawConnect` events in a trace. -/
def rawConnects : List Event → Nat
  | [] => 0
  | Event.rawConnect _ :: rest => rawConnects rest + 1
  | _ :: rest => rawConnects rest

/-- Number of `killChild` or `waitChild` events in a trace. -/
def killsOrWaits : List Event → Nat
  | [] => 0
  | Event.killChild _ :: rest => killsOrWaits rest + 1
  | Event.waitChild _ :: rest => killsOrWaits rest + 1
  | _ :: rest => killsOrWaits rest

theorem launches_append (a b : List Event) :
    launches (a ++ b) = launches a + launches b := by
  induction a with
  | nil => simp [launches]
  | cons x xs ih => cases x <;> simp [launches, ih, Nat.add_right_comm]

theorem rawConnects_append (a b : List Event) :
    rawConnects (a ++ b) = rawConnects a + rawConnects b := by
  induction a with
  | nil => simp [rawConnects]
  | cons x xs ih => cases x <;> simp [rawConnects, ih, Nat.add_right_comm]

theorem killsOrWaits_append (a b : List Event) :
    killsOrWaits (a ++ b) = killsOrWaits a + killsOrWaits b := by
  induction a with
  | nil => simp [killsOrWaits]
  | cons x xs ih => cases x <;> simp [killsOrWaits, ih, Nat.add_right_comm]

/-- The `Service` trait: socket name, connection wrapper, synchronous
launcher, and the post-liveness hook (whose default implementation returns
`Ok(())`). -/
structure Service (Conn : Type) where
  socket_name : String
  wrap_connection : Stream → Except IoError Conn
  run_service_command_raw : Option (List String) → Option Path → Except IoError Child
  after_post_liveness_subprocess : Child → Except IoError Unit

/-- The sixteen lowercase hexadecimal digit characters. -/
def hexDigitChars : List Char := "0123456789abcdef".data

/-- One lowercase hexadecimal digit character for a value below 16. -/
def hexDigitChar (n : Nat) : Char :=
  if n < 10 then Char.ofNat (48 + n) else Char.ofNat (87 + n)

/-- Rust's `format!("{:016x}", v)` for a `u64` value: sixteen zero-padded
lowercase hex digits, most significant first. -/
def hex16 (n : Nat) : String :=
  String.mk ((List.range 16).map (fun i => hexDigitChar (n / 16 ^ (15 - i) % 16)))

/-- `get_random_sockpath`: pushes `temp-{:016x}.sock` (formatted from the
64-bit value drawn from the ChaCha20 generator, supplied here as the oracle
argument `r`) onto the system temp directory. -/
def get_random_sockpath (temp_dir : Path) (r : Nat) : Path :=
  joinPath temp_dir ("temp-" ++ hex16 r ++ ".sock")

/-- Outcomes of the externally determined steps of one discovery attempt:
the raw `us_connect` on the named socket path, and the `us_to_std`
conversion of the obtained stream. -/
structure DiscoveryWorld where
  us_connect : Except IoError Stream
  us_to_std : Stream → Except IoError Stream

/-- `connect_to_running_service`: join the base directory with the socket
name, raw-connect, convert to a std stream, and wrap; any error propagates
as-is. -/
def connect_to_running_service {Conn : Type} (svc : Service Conn)
    (d : DiscoveryWorld) (base_context_directory : Path) :
    Except IoError Conn × List Event :=
  let server_socket_path := joinPath base_context_directory svc.socket_name
  match d.us_connect with
  | Except.ok s =>
      match d.us_to_std s with
      | Except.ok std_unix_stream =>
          (svc.wrap_connection std_unix_stream,
            [Event.rawConnect server_socket_path, Event.wrapConn std_unix_stream])
      | Except.error e => (Except.error e, [Event.rawConnect server_socket_path])
  | Except.error e => (Except.error e, [Event.rawConnect server_socket_path])

/-- Outcomes of the externally determined steps of one `connect_to_service`
call: the two discovery attempts, the ephemeral path produced by
`get_random_sockpath`, the ephemeral bind, the timed accept, and shutdown.

The `accept` field is modelled from the spec: the `timefut` module is
missing from `src/`; per the specification `with_timeout` yields `none`
exactly when no inbound connection arrives within the configured duration,
and otherwise the accept result. -/
structure ActivationWorld where
  disc1 : DiscoveryWorld
  ephemeralPath : Path
  ul_bind : Except IoError Listener
  accept : Option (Except IoError Stream)
  us_shutdown : Stream → Except IoError Unit
  disc2 : DiscoveryWorld

/-- `connect_to_service`: try discovery; on any discovery error enter
activation: bind an ephemeral liveness listener, launch the subprocess,
wait (bounded by `liveness_timeout`) for one inbound connection, shut it
down, drop the ephemeral resources (deleting the ephemeral socket file),
run the post-liveness hook, and re-attempt discovery once, whose result is
final.  Error propagation points drop the already-created
`CleanablePathBuf`, hence the `unlink` events on every path past the
ephemeral path creation. -/
def connect_to_service {Conn : Type} (svc : Service Conn) (w : ActivationWorld)
    ( executor_commandline_prefix : Option (List String))
    (base_context_directory : Path) (liveness_timeout : Duration) :
    Except IoError Conn × List Event :=
  match connect_to_running_service svc w.disc1 base_context_directory with
  | (Except.ok s, tr) => (Except.ok s, tr)
  | (Except.error _, tr) =>
    let ep := w.ephemeralPath
    match w.ul_bind with
    | Except.error e =>
        (Except.error e, tr ++ [Event.bindListener ep, Event.unlink ep])
    | Except.ok _ephem =>
      match svc.run_service_command_raw executor_commandline_prefix (some ep) with
      | Except.error e =>
          (Except.error e,
            tr ++ [Event.bindListener ep,
              Event.launch executor_commandline_prefix (some ep), Event.unlink ep])
      | Except.ok child_proc =>
        let tr2 := tr ++ [Event.bindListener ep,
          Event.launch executor_commandline_prefix (some ep), Event.acceptWait]
        match w.accept with
        | none =>
            (Except.error ⟨IoErrorKind.timedOut, some liveness_timeout⟩,
              tr2 ++ [Event.unlink ep])
        | some (Except.error e) => (Except.error e, tr2 ++ [Event.unlink ep])
        | some (Except.ok temp_unix_stream) =>
          match w.us_shutdown temp_unix_stream with
          | Except.error e =>
              (Except.error e,
                tr2 ++ [Event.shutdownStream temp_unix_stream, Event.unlink ep])
          | Except.ok _ =>
            let tr3 := tr2 ++ [Event.shutdownStream temp_unix_stream, Event.unlink ep]
            match svc.after_post_liveness_subprocess child_proc with
            | Except.error e =>
                (Except.error e, tr3 ++ [Event.afterLiveness child_proc])
            | Except.ok _ =>
              let second := connect_to_running_service svc w.disc2 base_context_directory
              (second.1, tr3 ++ [Event.afterLiveness child_proc] ++ second.2)

/-- The externally determined outcome of the raw `UnixListener::bind` in
`try_and_open_raw_socket`. -/
structure BindWorld where
  bind : Except IoError Listener

/-- `ServerService`: the service, the wrapped listener, and the owned
scoped path of the named socket file (a `CleanablePathBuf` in the source,
so releasing the structure deletes that file). -/
structure ServerService (Conn Wrapper : Type) where
  service : Service Conn
  unix_listener_socket : Wrapper
  socket_path : Path

/-- `try_and_open_raw_socket`: wraps the named socket path in a
`CleanablePathBuf` first, then raw-binds it and applies the listener
wrapper.  On either failure the already-created scoped path is dropped,
which attempts deletion of the file at the named path (the `unlink`
events). -/
def try_and_open_raw_socket {Conn Wrapper : Type} (service : Service Conn)
    (w : BindWorld) (context_base_path : Path)
    (unix_listener_wrapping : Listener → Except IoError Wrapper) :
    Except IoError (ServerService Conn Wrapper) × List Event :=
  let socket_path := joinPath context_base_path service.socket_name
  match w.bind with
  | Except.error e =>
      (Except.error e, [Event.bindListener socket_path, Event.unlink socket_path])
  | Except.ok raw_listener =>
    match unix_listener_wrapping raw_listener with
    | Except.error e =>
        (Except.error e, [Event.bindListener socket_path, Event.unlink socket_path])
    | Except.ok wrapped =>
        (Except.ok ⟨service, wrapped, socket_path⟩, [Event.bindListener socket_path])

/-- Outcomes of the externally determined steps of one `run_server` call:
the connect to the parent's liveness socket and the (ignored) shutdown of
that connection. -/
structure RunWorld where
  us_connect_liveness : Except IoError Stream
  us_shutdown : Stream → Except IoError Unit

/-- `run_server`: when a liveness path is given, connect to it once; on
success shut the connection down (ignoring the shutdown result); on failure
return the error when `die_with_parent_prefailure` is set (dropping `self`,
hence the named socket file is still deleted) and otherwise only log.  Then
run the server body and, regardless of its outcome, drop the scoped socket
path (deleting the named socket file) and return the body's result. -/
def run_server {Conn Wrapper T : Type} (self : ServerService Conn Wrapper)
    (w : RunWorld) (the_service_function : Wrapper → Service Conn → Except IoError T)
    (liveness_path : Option Path) (die_with_parent_prefailure : Bool) :
    Except IoError T × List Event :=
  match liveness_path with
  | some parent_socket_path =>
    match w.us_connect_liveness with
    | Except.ok raw_socket =>
        (the_service_function self.unix_listener_socket self.service,
          [Event.rawConnect parent_socket_path, Event.shutdownStream raw_socket,
            Event.runBody, Event.unlink self.socket_path])
    | Except.error ephemeral_error =>
      if die_with_parent_prefailure then
        (Except.error ephemeral_error,
          [Event.rawConnect parent_socket_path, Event.unlink self.socket_path])
      else
        (the_service_function self.unix_listener_socket self.service,
          [Event.rawConnect parent_socket_path, Event.runBody,
            Event.unlink self.socket_path])
  | none =>
      (the_service_function self.unix_listener_socket self.service,
        [Event.runBody, Event.unlink self.socket_path])

/-- Discovery when the raw connect fails: the error propagates as-is and the
only effect is the connect attempt. -/
theorem crs_of_connect_error {Conn : Type} (svc : Service Conn) (d : DiscoveryWorld)
    (base : Path) (e : IoError) (h : d.us_connect = Except.error e) :
    connect_to_running_service svc d base =
      (Except.error e, [Event.rawConnect (joinPath base svc.socket_name)]) := by
  unfold connect_to_running_service
  rw [h]

/-- Discovery when the raw connect succeeds but the std-stream conversion
fails: the conversion error propagates as-is. -/
theorem crs_of_to_std_error {Conn : Type} (svc : Service Conn) (d : DiscoveryWorld)
    (base : Path) (s : Stream) (e : IoError)
    (h : d.us_connect = Except.ok s) (h2 : d.us_to_std s = Except.error e) :
    connect_to_running_service svc d base =
      (Except.error e, [Event.rawConnect (joinPath base svc.socket_name)]) := by
  unfold connect_to_running_service
  rw [h]
  simp only [h2]

/-- Discovery when the raw connect and conversion succeed: the result is
whatever `wrap_connection` returns (success or wrap error), immediately. -/
theorem crs_of_connect_ok {Conn : Type} (svc : Service Conn) (d : DiscoveryWorld)
    (base : Path) (s std : Stream)
    (h : d.us_connect = Except.ok s) (h2 : d.us_to_std s = Except.ok std) :
    connect_to_running_service svc d base =
      (svc.wrap_connection std,
        [Event.rawConnect (joinPath base svc.socket_name), Event.wrapConn std]) := by
  unfold connect_to_running_service
  rw [h]
  simp only [h2]

/-- Every discovery trace is either the single connect attempt or the
connect attempt followed by the wrap invocation. -/
theorem crs_trace_shape {Conn : Type} (svc : Service Conn) (d : DiscoveryWorld)
    (base : Path) :
    (connect_to_running_service svc d base).2 =
        [Event.rawConnect (joinPath base svc.socket_name)] ∨
    ∃ s, (connect_to_running_service svc d base).2 =
        [Event.rawConnect (joinPath base svc.socket_name), Event.wrapConn s] := by
  cases h : d.us_connect with
  | error e => rw [crs_of_connect_error svc d base e h]; left; rfl
  | ok s =>
    cases h2 : d.us_to_std s with
    | error e => rw [crs_of_to_std_error svc d base s e h h2]; left; rfl
    | ok std => rw [crs_of_connect_ok svc d base s std h h2]; right; exact ⟨std, rfl⟩

/-- Discovery never launches a subprocess. -/
theorem launches_crs {Conn : Type} (svc : Service Conn) (d : DiscoveryWorld)
    (base : Path) : launches (connect_to_running_service svc d base).2 = 0 := by
  rcases crs_trace_shape svc d base with h | ⟨s, h⟩ <;> rw [h] <;> rfl

/-- Discovery performs exactly one raw connect attempt. -/
theorem rawConnects_crs {Conn : Type} (svc : Service Conn) (d : DiscoveryWorld)
    (base : Path) : rawConnects (connect_to_running_service svc d base).2 = 1 := by
  rcases crs_trace_shape svc d base with h | ⟨s, h⟩ <;> rw [h] <;> rfl

/-- Discovery never kills or waits on a child. -/
theorem killsOrWaits_crs {Conn : Type} (svc : Service Conn) (d : DiscoveryWorld)
    (base : Path) : killsOrWaits (connect_to_running_service svc d base).2 = 0 := by
  rcases crs_trace_shape svc d base with h | ⟨s, h⟩ <;> rw [h] <;> rfl

/-- Every event of a discovery trace is a connect attempt or a wrap
invocation. -/
theorem crs_events {Conn : Type} (svc : Service Conn) (d : DiscoveryWorld)
    (base : Path) :
    ∀ ev ∈ (connect_to_running_service svc d base).2,
      ev = Event.rawConnect (joinPath base svc.socket_name) ∨
      ∃ s, ev = Event.wrapConn s := by
  rcases crs_trace_shape svc d base with h | ⟨s, h⟩ <;> rw [h] <;> intro ev hev <;>
    simp only [List.mem_cons, List.mem_singleton, List.not_mem_nil, or_false] at hev
  · exact Or.inl hev
  · rcases hev with h1 | h1
    · exact Or.inl h1
    · exact Or.inr ⟨s, h1⟩

/-- `connect_to_service` when the first discovery succeeds: its result is
returned as-is, nothing else happens. -/
theorem cts_of_discovery_ok {Conn : Type} (svc : Service Conn) (w : ActivationWorld)
    ( executor_commandline_prefix : Option (List String)) (base : Path) (t : Duration)
    (c : Conn) (tr0 : List Event)
    (h1 : connect_to_running_service svc w.disc1 base = (Except.ok c, tr0)) :
    connect_to_service svc w executor_commandline_prefix base t = (Except.ok c, tr0) := by
  unfold connect_to_service
  rw [h1]

/-- Activation when the ephemeral bind fails: the bind error propagates and
the ephemeral scoped path is still released. -/
theorem cts_of_bind_error {Conn : Type} (svc : Service Conn) (w : ActivationWorld)
    ( executor_commandline_prefix : Option (List String)) (base : Path) (t : Duration)
    (e : IoError) (tr0 : List Event) (eb : IoError)
    (h1 : connect_to_running_service svc w.disc1 base = (Except.error e, tr0))
    (h2 : w.ul_bind = Except.error eb) :
    connect_to_service svc w executor_commandline_prefix base t =
      (Except.error eb,
        tr0 ++ [Event.bindListener w.ephemeralPath, Event.unlink w.ephemeralPath]) := by
  unfold connect_to_service
  rw [h1]
  simp only [h2]

/-- Activation when the launch fails: the launch error propagates and the
ephemeral scoped path is still released. -/
theorem cts_of_launch_error {Conn : Type} (svc : Service Conn) (w : ActivationWorld)
    ( executor_commandline_prefix : Option (List String)) (base : Path) (t : Duration)
    (e : IoError) (tr0 : List Event) (l : Listener) (el : IoError)
    (h1 : connect_to_running_service svc w.disc1 base = (Except.error e, tr0))
    (h2 : w.ul_bind = Except.ok l)
    (h3 : svc.run_service_command_raw executor_commandline_prefix (some w.ephemeralPath) =
      Except.error el) :
    connect_to_service svc w executor_commandline_prefix base t =
      (Except.error el,
        tr0 ++ [Event.bindListener w.ephemeralPath,
          Event.launch executor_commandline_prefix (some w.ephemeralPath),
          Event.unlink w.ephemeralPath]) := by
  unfold connect_to_service
  rw [h1]
  simp only [h2, h3]

/-- Activation when no liveness connection arrives in time: the library
constructs a `TimedOut` error carrying the configured duration. -/
theorem cts_of_timeout {Conn : Type} (svc : Service Conn) (w : ActivationWorld)
    ( executor_commandline_prefix : Option (List String)) (base : Path) (t : Duration)
    (e : IoError) (tr0 : List Event) (l : Listener) (ch : Child)
    (h1 : connect_to_running_service svc w.disc1 base = (Except.error e, tr0))
    (h2 : w.ul_bind = Except.ok l)
    (h3 : svc.run_service_command_raw executor_commandline_prefix (some w.ephemeralPath) =
      Except.ok ch)
    (h4 : w.accept = none) :
    connect_to_service svc w executor_commandline_prefix base t =
      (Except.error ⟨IoErrorKind.timedOut, some t⟩,
        tr0 ++ [Event.bindListener w.ephemeralPath,
          Event.launch executor_commandline_prefix (some w.ephemeralPath),
          Event.acceptWait, Event.unlink w.ephemeralPath]) := by
  unfold connect_to_service
  rw [h1]
  simp only [h2, h3, h4]
  simp [List.append_assoc]

/-- Activation when the accept itself fails: the accept error propagates. -/
theorem cts_of_accept_error {Conn : Type} (svc : Service Conn) (w : ActivationWorld)
    ( executor_commandline_prefix : Option (List String)) (base : Path) (t : Duration)
    (e : IoError) (tr0 : List Event) (l : Listener) (ch : Child) (ea : IoError)
    (h1 : connect_to_running_service svc w.disc1 base = (Except.error e, tr0))
    (h2 : w.ul_bind = Except.ok l)
    (h3 : svc.run_service_command_raw executor_commandline_prefix (some w.ephemeralPath) =
      Except.ok ch)
    (h4 : w.accept = some (Except.error ea)) :
    connect_to_service svc w executor_commandline_prefix base t =
      (Except.error ea,
        tr0 ++ [Event.bindListener w.ephemeralPath,
          Event.launch executor_commandline_prefix (some w.ephemeralPath),
          Event.acceptWait, Event.unlink w.ephemeralPath]) := by
  unfold connect_to_service
  rw [h1]
  simp only [h2, h3, h4]
  simp [List.append_assoc]

/-- Activation when the accepted liveness connection fails to shut down:
that error is the final result; the hook and the re-discovery never run. -/
theorem cts_of_shutdown_error {Conn : Type} (svc : Service Conn) (w : ActivationWorld)
    ( executor_commandline_prefix : Option (List String)) (base : Path) (t : Duration)
    (e : IoError) (tr0 : List Event) (l : Listener) (ch : Child) (s : Stream) (es : IoError)
    (h1 : connect_to_running_service svc w.disc1 base = (Except.error e, tr0))
    (h2 : w.ul_bind = Except.ok l)
    (h3 : svc.run_service_command_raw executor_commandline_prefix (some w.ephemeralPath) =
      Except.ok ch)
    (h4 : w.accept = some (Except.ok s))
    (h5 : w.us_shutdown s = Except.error es) :
    connect_to_service svc w executor_commandline_prefix base t =
      (Except.error es,
        tr0 ++ [Event.bindListener w.ephemeralPath,
          Event.launch executor_commandline_prefix (some w.ephemeralPath),
          Event.acceptWait, Event.shutdownStream s, Event.unlink w.ephemeralPath]) := by
  unfold connect_to_service
  rw [h1]
  simp only [h2, h3, h4, h5]
  simp [List.append_assoc]

/-- Activation when the post-liveness hook fails: the hook error is the
final result; the re-discovery never runs. -/
theorem cts_of_hook_error {Conn : Type} (svc : Service Conn) (w : ActivationWorld)
    ( executor_commandline_prefix : Option (List String)) (base : Path) (t : Duration)
    (e : IoError) (tr0 : List Event) (l : Listener) (ch : Child) (s : Stream) (eh : IoError)
    (h1 : connect_to_running_service svc w.disc1 base = (Except.error e, tr0))
    (h2 : w.ul_bind = Except.ok l)
    (h3 : svc.run_service_command_raw executor_commandline_prefix (some w.ephemeralPath) =
      Except.ok ch)
    (h4 : w.accept = some (Except.ok s))
    (h5 : w.us_shutdown s = Except.ok ())
    (h6 : svc.after_post_liveness_subprocess ch = Except.error eh) :
    connect_to_service svc w executor_commandline_prefix base t =
      (Except.error eh,
        tr0 ++ [Event.bindListener w.ephemeralPath,
          Event.launch executor_commandline_prefix (some w.ephemeralPath),
          Event.acceptWait, Event.shutdownStream s, Event.unlink w.ephemeralPath,
          Event.afterLiveness ch]) := by
  unfold connect_to_service
  rw [h1]
  simp only [h2, h3, h4, h5, h6]
  simp [List.append_assoc]

/-- Activation when the whole handshake and the hook succeed: discovery is
re-attempted once and its result, success or failure, is the final
outcome. -/
theorem cts_of_handshake_ok {Conn : Type} (svc : Service Conn) (w : ActivationWorld)
    ( executor_commandline_prefix : Option (List String)) (base : Path) (t : Duration)
    (e : IoError) (tr0 : List Event) (l : Listener) (ch : Child) (s : Stream)
    (h1 : connect_to_running_service svc w.disc1 base = (Except.error e, tr0))
    (h2 : w.ul_bind = Except.ok l)
    (h3 : svc.run_service_command_raw executor_commandline_prefix (some w.ephemeralPath) =
      Except.ok ch)
    (h4 : w.accept = some (Except.ok s))
    (h5 : w.us_shutdown s = Except.ok ())
    (h6 : svc.after_post_liveness_subprocess ch = Except.ok ()) :
    connect_to_service svc w executor_commandline_prefix base t =
      ((connect_to_running_service svc w.disc2 base).1,
        tr0 ++ [Event.bindListener w.ephemeralPath,
          Event.launch executor_commandline_prefix (some w.ephemeralPath),
          Event.acceptWait, Event.shutdownStream s, Event.unlink w.ephemeralPath,
          Event.afterLiveness ch] ++ (connect_to_running_service svc w.disc2 base).2) := by
  unfold connect_to_service
  rw [h1]
  simp only [h2, h3, h4, h5, h6]
  simp [List.append_assoc]

/-- On any discovery failure, activation is entered: the ephemeral bind is
attempted, whatever happens afterwards. -/
theorem mem_bind_of_discovery_error {Conn : Type} (svc : Service Conn)
    (w : ActivationWorld) (px : Option (List String)) (base : Path) (t : Duration)
    (e : IoError) (tr0 : List Event)
    (h1 : connect_to_running_service svc w.disc1 base = (Except.error e, tr0)) :
    Event.bindListener w.ephemeralPath ∈ (connect_to_service svc w px base t).2 := by
  cases h2 : w.ul_bind with
  | error eb =>
    rw [cts_of_bind_error svc w px base t e tr0 eb h1 h2]; simp
  | ok l =>
    cases h3 : svc.run_service_command_raw px (some w.ephemeralPath) with
    | error el =>
      rw [cts_of_launch_error svc w px base t e tr0 l el h1 h2 h3]; simp
    | ok ch =>
      cases h4 : w.accept with
      | none => rw [cts_of_timeout svc w px base t e tr0 l ch h1 h2 h3 h4]; simp
      | some res =>
        cases res with
        | error ea =>
          rw [cts_of_accept_error svc w px base t e tr0 l ch ea h1 h2 h3 h4]; simp
        | ok str =>
          cases h5 : w.us_shutdown str with
          | error es =>
            rw [cts_of_shutdown_error svc w px base t e tr0 l ch str es h1 h2 h3 h4 h5]
            simp
          | ok u =>
            cases u
            cases h6 : svc.after_post_liveness_subprocess ch with
            | error eh =>
              rw [cts_of_hook_error svc w px base t e tr0 l ch str eh h1 h2 h3 h4 h5 h6]
              simp
            | ok v =>
              cases v
              rw [cts_of_handshake_ok svc w px base t e tr0 l ch str h1 h2 h3 h4 h5 h6]
              simp

/-- On any discovery failure followed by a successful ephemeral bind, the
launch is invoked. -/
theorem mem_launch_of_bind_ok {Conn : Type} (svc : Service Conn)
    (w : ActivationWorld) (px : Option (List String)) (base : Path) (t : Duration)
    (e : IoError) (tr0 : List Event) (l : Listener)
    (h1 : connect_to_running_service svc w.disc1 base = (Except.error e, tr0))
    (h2 : w.ul_bind = Except.ok l) :
    Event.launch px (some w.ephemeralPath) ∈ (connect_to_service svc w px base t).2 := by
  cases h3 : svc.run_service_command_raw px (some w.ephemeralPath) with
  | error el =>
    rw [cts_of_launch_error svc w px base t e tr0 l el h1 h2 h3]; simp
  | ok ch =>
    cases h4 : w.accept with
    | none => rw [cts_of_timeout svc w px base t e tr0 l ch h1 h2 h3 h4]; simp
    | some res =>
      cases res with
      | error ea =>
        rw [cts_of_accept_error svc w px base t e tr0 l ch ea h1 h2 h3 h4]; simp
      | ok str =>
        cases h5 : w.us_shutdown str with
        | error es =>
          rw [cts_of_shutdown_error svc w px base t e tr0 l ch str es h1 h2 h3 h4 h5]
          simp
        | ok u =>
          cases u
          cases h6 : svc.after_post_liveness_subprocess ch with
          | error eh =>
            rw [cts_of_hook_error svc w px base t e tr0 l ch str eh h1 h2 h3 h4 h5 h6]
            simp
          | ok v =>
            cases v
            rw [cts_of_handshake_ok svc w px base t e tr0 l ch str h1 h2 h3 h4 h5 h6]
            simp

/-- On any discovery failure followed by a successful ephemeral bind, the
launch is invoked exactly once. -/
theorem launches_cts_one_of_bind_ok {Conn : Type} (svc : Service Conn)
    (w : ActivationWorld) (px : Option (List String)) (base : Path) (t : Duration)
    (e : IoError) (tr0 : List Event) (l : Listener)
    (h1 : connect_to_running_service svc w.disc1 base = (Except.error e, tr0))
    (h2 : w.ul_bind = Except.ok l) :
    launches (connect_to_service svc w px base t).2 = 1 := by
  have htr0 : launches tr0 = 0 := by
    have h := launches_crs svc w.disc1 base
    rw [h1] at h
    exact h
  cases h3 : svc.run_service_command_raw px (some w.ephemeralPath) with
  | error el =>
    rw [cts_of_launch_error svc w px base t e tr0 l el h1 h2 h3]
    simp [launches_append, launches, htr0]
  | ok ch =>
    cases h4 : w.accept with
    | none =>
      rw [cts_of_timeout svc w px base t e tr0 l ch h1 h2 h3 h4]
      simp [launches_append, launches, htr0]
    | some res =>
      cases res with
      | error ea =>
        rw [cts_of_accept_error svc w px base t e tr0 l ch ea h1 h2 h3 h4]
        simp [launches_append, launches, htr0]
      | ok str =>
        cases h5 : w.us_shutdown str with
        | error es =>
          rw [cts_of_shutdown_error svc w px base t e tr0 l ch str es h1 h2 h3 h4 h5]
          simp [launches_append, launches, htr0]
        | ok u =>
          cases u
          cases h6 : svc.after_post_liveness_subprocess ch with
          | error eh =>
            rw [cts_of_hook_error svc w px base t e tr0 l ch str eh h1 h2 h3 h4 h5 h6]
            simp [launches_append, launches, htr0]
          | ok v =>
            cases v
            rw [cts_of_handshake_ok svc w px base t e tr0 l ch str h1 h2 h3 h4 h5 h6]
            simp [launches_append, launches, htr0, launches_crs]

/-- Service used by several concrete scenarios: wrapping fails on stream 5
and succeeds otherwise; launching succeeds; the hook is the default. -/
def svcA : Service Nat where
  socket_name := "svc.sock"
  wrap_connection := fun s =>
    if s = 5 then Except.error ⟨IoErrorKind.other 1, none⟩ else Except.ok 99
  run_service_command_raw := fun _ _ => Except.ok 3
  after_post_liveness_subprocess := fun _ => Except.ok ()

/-- Service used by several concrete scenarios: wrapping succeeds, launching
always fails (a nonexistent command). -/
def svcB : Service Nat where
  socket_name := "svcB.sock"
  wrap_connection := fun s => Except.ok s
  run_service_command_raw := fun _ _ => Except.error ⟨IoErrorKind.other 9, none⟩
  after_post_liveness_subprocess := fun _ => Except.ok ()

/-- A discovery attempt whose raw connect fails (no live listener). -/
def dErr : DiscoveryWorld where
  us_connect := Except.error ⟨IoErrorKind.other 2, none⟩
  us_to_std := fun s => Except.ok s

/-- A discovery attempt whose raw connect yields stream 5. -/
def dOk5 : DiscoveryWorld where
  us_connect := Except.ok 5
  us_to_std := fun s => Except.ok s

/-- A discovery attempt whose raw connect yields stream 6. -/
def dOk6 : DiscoveryWorld where
  us_connect := Except.ok 6
  us_to_std := fun s => Except.ok s

/-- World for the wrap-failure scenario: the first discovery raw connect
succeeds (stream 5, wrapping fails for `svcA`); activation then runs to
completion and the second discovery yields stream 6. -/
def wA : ActivationWorld where
  disc1 := dOk5
  ephemeralPath := "/tmp/temp-0000000000000000.sock"
  ul_bind := Except.ok 1
  accept := some (Except.ok 7)
  us_shutdown := fun _ => Except.ok ()
  disc2 := dOk6

/-- World where the first discovery fails and the ephemeral bind fails. -/
def wB : ActivationWorld where
  disc1 := dErr
  ephemeralPath := "/tmp/temp-0000000000000001.sock"
  ul_bind := Except.error ⟨IoErrorKind.other 4, none⟩
  accept := none
  us_shutdown := fun _ => Except.ok ()
  disc2 := dErr

/-- Claim C1 (amended): when the raw connect of the first discovery succeeds
but `wrap_connection` fails, `connect_to_service` does not return the wrap
error immediately; it treats the failure like any discovery failure and
enters activation: the ephemeral bind is attempted, and when the bind
succeeds the launch is invoked. -/
theorem c1_wrap_failure_enters_activation {Conn : Type} (svc : Service Conn)
    (w : ActivationWorld) (px : Option (List String)) (base : Path) (t : Duration)
    (s std : Stream) (e : IoError)
    (h1 : w.disc1.us_connect = Except.ok s)
    (h2 : w.disc1.us_to_std s = Except.ok std)
    (h3 : svc.wrap_connection std = Except.error e) :
    Event.bindListener w.ephemeralPath ∈ (connect_to_service svc w px base t).2 ∧
    (∀ l, w.ul_bind = Except.ok l →
      Event.launch px (some w.ephemeralPath) ∈ (connect_to_service svc w px base t).2) := by
  have hcrs : connect_to_running_service svc w.disc1 base =
      (Except.error e,
        [Event.rawConnect (joinPath base svc.socket_name), Event.wrapConn std]) := by
    rw [crs_of_connect_ok svc w.disc1 base s std h1 h2, h3]
  exact ⟨mem_bind_of_discovery_error svc w px base t e _ hcrs,
    fun l hl => mem_launch_of_bind_ok svc w px base t e _ l hcrs hl⟩

/-- Claim C1 counterexample: the raw connect succeeds and wrapping fails,
yet `connect_to_service` does not return the wrap error: activation runs,
the launch is invoked, and the call even succeeds via the re-discovery. -/
theorem c1_wrap_failure_counterexample :
    wA.disc1.us_connect = Except.ok 5 ∧
    svcA.wrap_connection 5 = Except.error ⟨IoErrorKind.other 1, none⟩ ∧
    (connect_to_service svcA wA none "/base" 9).1 = Except.ok 99 ∧
    Event.launch none (some "/tmp/temp-0000000000000000.sock") ∈
      (connect_to_service svcA wA none "/base" 9).2 := by
  refine ⟨rfl, rfl, rfl, ?_⟩
  decide

/-- Witness for the amended claim C1 at a concrete input. -/
theorem c1_wrap_failure_enters_activation_witness :
    wA.disc1.us_connect = Except.ok 5 ∧
    wA.disc1.us_to_std 5 = Except.ok 5 ∧
    svcA.wrap_connection 5 = Except.error ⟨IoErrorKind.other 1, none⟩ ∧
    (Event.bindListener wA.ephemeralPath ∈ (connect_to_service svcA wA none "/base" 9).2 ∧
      (∀ l, wA.ul_bind = Except.ok l →
        Event.launch none (some wA.ephemeralPath) ∈
          (connect_to_service svcA wA none "/base" 9).2)) :=
  ⟨rfl, rfl, rfl,
    c1_wrap_failure_enters_activation svcA wA none "/base" 9 5 5
      ⟨IoErrorKind.other 1, none⟩ rfl rfl rfl⟩

/-- Claim C6 (amended): when a live listener exists at the named path and
the stream conversion and wrap both succeed on the first discovery,
`connect_to_service` returns that wrapped connection, invokes no launch and
binds no ephemeral listener. -/
theorem c6_running_service_no_launch {Conn : Type} (svc : Service Conn)
    (w : ActivationWorld) (px : Option (List String)) (base : Path) (t : Duration)
    (s std : Stream) (c : Conn)
    (h1 : w.disc1.us_connect = Except.ok s)
    (h2 : w.disc1.us_to_std s = Except.ok std)
    (h3 : svc.wrap_connection std = Except.ok c) :
    (connect_to_service svc w px base t).1 = Except.ok c ∧
    launches (connect_to_service svc w px base t).2 = 0 ∧
    (∀ p, Event.bindListener p ∉ (connect_to_service svc w px base t).2) := by
  have hcrs : connect_to_running_service svc w.disc1 base =
      (Except.ok c,
        [Event.rawConnect (joinPath base svc.socket_name), Event.wrapConn std]) := by
    rw [crs_of_connect_ok svc w.disc1 base s std h1 h2, h3]
  rw [cts_of_discovery_ok svc w px base t c _ hcrs]
  refine ⟨rfl, rfl, ?_⟩
  intro p hp
  simp at hp

/-- Claim C6 counterexample: a live listener exists at the named socket path
(the raw connect succeeds), yet the launch is invoked, because the
descriptor's wrap fails and any discovery error triggers activation. -/
theorem c6_existing_listener_counterexample :
    wA.disc1.us_connect = Except.ok 5 ∧
    launches (connect_to_service svcA wA none "/base" 9).2 = 1 := ⟨rfl, rfl⟩

/-- Witness for the amended claim C6 at a concrete input. -/
theorem c6_running_service_no_launch_witness :
    wA.disc2.us_connect = Except.ok 6 ∧
    svcA.wrap_connection 6 = Except.ok 99 ∧
    ((connect_to_service svcA
        ⟨dOk6, "/tmp/temp-0000000000000005.sock", Except.ok 1, none,
          fun _ => Except.ok (), dErr⟩ none "/base" 9).1 = Except.ok 99 ∧
      launches (connect_to_service svcA
        ⟨dOk6, "/tmp/temp-0000000000000005.sock", Except.ok 1, none,
          fun _ => Except.ok (), dErr⟩ none "/base" 9).2 = 0 ∧
      (∀ p, Event.bindListener p ∉ (connect_to_service svcA
        ⟨dOk6, "/tmp/temp-0000000000000005.sock", Except.ok 1, none,
          fun _ => Except.ok (), dErr⟩ none "/base" 9).2)) :=
  ⟨rfl, rfl,
    c6_running_service_no_launch svcA
      ⟨dOk6, "/tmp/temp-0000000000000005.sock", Except.ok 1, none,
        fun _ => Except.ok (), dErr⟩ none "/base" 9 6 6 99 rfl rfl rfl⟩

/-- Claim C3 (amended): per `connect_to_service` call the launch runs at
most once: zero times when the initial discovery succeeds and also zero
times when the ephemeral bind fails, exactly once otherwise; and after a
successful liveness handshake and post-liveness hook, discovery is
re-attempted exactly once more (two raw connects in total) and its result is
the final outcome, with no further spawn. -/
theorem c3_launch_at_most_once {Conn : Type} (svc : Service Conn)
    (w : ActivationWorld) (px : Option (List String)) (base : Path) (t : Duration) :
    launches (connect_to_service svc w px base t).2 ≤ 1 ∧
    (∀ c tr0, connect_to_running_service svc w.disc1 base = (Except.ok c, tr0) →
      launches (connect_to_service svc w px base t).2 = 0) ∧
    (∀ e tr0 eb, connect_to_running_service svc w.disc1 base = (Except.error e, tr0) →
      w.ul_bind = Except.error eb →
      launches (connect_to_service svc w px base t).2 = 0) ∧
    (∀ e tr0 l, connect_to_running_service svc w.disc1 base = (Except.error e, tr0) →
      w.ul_bind = Except.ok l →
      launches (connect_to_service svc w px base t).2 = 1) ∧
    (∀ e tr0 l ch s, connect_to_running_service svc w.disc1 base = (Except.error e, tr0) →
      w.ul_bind = Except.ok l →
      svc.run_service_command_raw px (some w.ephemeralPath) = Except.ok ch →
      w.accept = some (Except.ok s) →
      w.us_shutdown s = Except.ok () →
      svc.after_post_liveness_subprocess ch = Except.ok () →
      (connect_to_service svc w px base t).1 =
        (connect_to_running_service svc w.disc2 base).1 ∧
      rawConnects (connect_to_service svc w px base t).2 = 2 ∧
      launches (connect_to_service svc w px base t).2 = 1) := by
  have hdok : ∀ c tr0, connect_to_running_service svc w.disc1 base = (Except.ok c, tr0) →
      launches (connect_to_service svc w px base t).2 = 0 := by
    intro c tr0 hc
    rw [cts_of_discovery_ok svc w px base t c tr0 hc]
    have h := launches_crs svc w.disc1 base
    rw [hc] at h
    exact h
  have hberr : ∀ e tr0 eb, connect_to_running_service svc w.disc1 base = (Except.error e, tr0) →
      w.ul_bind = Except.error eb →
      launches (connect_to_service svc w px base t).2 = 0 := by
    intro e tr0 eb hc hb
    rw [cts_of_bind_error svc w px base t e tr0 eb hc hb]
    have h := launches_crs svc w.disc1 base
    rw [hc] at h
    simp [launches_append, launches, h]
  refine ⟨?_, hdok, hberr, ?_, ?_⟩
  · rcases hc : connect_to_running_service svc w.disc1 base with ⟨r0, tr0⟩
    cases r0 with
    | ok c => rw [hdok c tr0 hc]; omega
    | error e =>
      cases hb : w.ul_bind with
      | error eb => rw [hberr e tr0 eb hc hb]; omega
      | ok l =>
        rw [launches_cts_one_of_bind_ok svc w px base t e tr0 l hc hb]
  · intro e tr0 l hc hb
    exact launches_cts_one_of_bind_ok svc w px base t e tr0 l hc hb
  · intro e tr0 l ch s hc hb hl ha hs hh
    have htr0r : rawConnects tr0 = 1 := by
      have h := rawConnects_crs svc w.disc1 base
      rw [hc] at h
      exact h
    rw [cts_of_handshake_ok svc w px base t e tr0 l ch s hc hb hl ha hs hh]
    refine ⟨rfl, ?_, ?_⟩
    · simp [rawConnects_append, rawConnects, htr0r, rawConnects_crs]
    · have htr0l : launches tr0 = 0 := by
        have h := launches_crs svc w.disc1 base
        rw [hc] at h
        exact h
      simp [launches_append, launches, htr0l, launches_crs]

/-- Claim C3 counterexample: the initial discovery fails and the ephemeral
bind fails, so the launch is invoked zero times, not exactly once. -/
theorem c3_zero_launch_counterexample :
    (connect_to_running_service svcB wB.disc1 "/base").1 =
      Except.error ⟨IoErrorKind.other 2, none⟩ ∧
    launches (connect_to_service svcB wB none "/base" 9).2 = 0 := ⟨rfl, rfl⟩

/-- Witness for the amended claim C3 at concrete inputs. -/
theorem c3_launch_at_most_once_witness :
    launches (connect_to_service svcA wA none "/base" 9).2 ≤ 1 ∧
    launches (connect_to_service svcB wB none "/base" 9).2 = 0 :=
  ⟨(c3_launch_at_most_once svcA wA none "/base" 9).1,
    (c3_launch_at_most_once svcB wB none "/base" 9).2.2.1
      ⟨IoErrorKind.other 2, none⟩ [Event.rawConnect "/base/svcB.sock"]
      ⟨IoErrorKind.other 4, none⟩ rfl rfl⟩

/-- A discovery trace never contains a hook invocation. -/
theorem afterLiveness_not_mem_crs {Conn : Type} (svc : Service Conn)
    (d : DiscoveryWorld) (base : Path) (c : Child) :
    Event.afterLiveness c ∉ (connect_to_running_service svc d base).2 := by
  intro hmem
  rcases crs_events svc d base _ hmem with h1 | ⟨s, h1⟩ <;> simp at h1

/-- A discovery trace never contains an accept wait. -/
theorem acceptWait_not_mem_crs {Conn : Type} (svc : Service Conn)
    (d : DiscoveryWorld) (base : Path) :
    Event.acceptWait ∉ (connect_to_running_service svc d base).2 := by
  intro hmem
  rcases crs_events svc d base _ hmem with h1 | ⟨s, h1⟩ <;> simp at h1

/-- Claim C5: when activation is entered, the subprocess starts, and no
inbound connection arrives on the ephemeral listener within the timeout,
`connect_to_service` fails with a `TimedOut` error carrying the configured
duration; the launch did happen, but the child is neither killed nor waited
on, and the post-liveness hook never runs. -/
theorem c5_liveness_timeout {Conn : Type} (svc : Service Conn)
    (w : ActivationWorld) (px : Option (List String)) (base : Path) (t : Duration)
    (e : IoError) (tr0 : List Event) (l : Listener) (ch : Child)
    (h1 : connect_to_running_service svc w.disc1 base = (Except.error e, tr0))
    (h2 : w.ul_bind = Except.ok l)
    (h3 : svc.run_service_command_raw px (some w.ephemeralPath) = Except.ok ch)
    (h4 : w.accept = none) :
    (connect_to_service svc w px base t).1 =
      Except.error ⟨IoErrorKind.timedOut, some t⟩ ∧
    Event.launch px (some w.ephemeralPath) ∈ (connect_to_service svc w px base t).2 ∧
    killsOrWaits (connect_to_service svc w px base t).2 = 0 ∧
    (∀ c, Event.afterLiveness c ∉ (connect_to_service svc w px base t).2) := by
  have htr0 : (connect_to_running_service svc w.disc1 base).2 = tr0 := by rw [h1]
  rw [cts_of_timeout svc w px base t e tr0 l ch h1 h2 h3 h4]
  refine ⟨rfl, by simp, ?_, ?_⟩
  · have hk := killsOrWaits_crs svc w.disc1 base
    rw [htr0] at hk
    simp [killsOrWaits_append, killsOrWaits, hk]
  · intro c hc
    rw [List.mem_append] at hc
    rcases hc with hc | hc
    · rw [← htr0] at hc
      exact afterLiveness_not_mem_crs svc w.disc1 base c hc
    · simp at hc

/-- World where the first discovery fails, the ephemeral bind succeeds, and
no liveness connection ever arrives before the timeout. -/
def wT : ActivationWorld where
  disc1 := dErr
  ephemeralPath := "/tmp/temp-0000000000000002.sock"
  ul_bind := Except.ok 1
  accept := none
  us_shutdown := fun _ => Except.ok ()
  disc2 := dErr

/-- Witness for claim C5 at a concrete input. -/
theorem c5_liveness_timeout_witness :
    wT.accept = none ∧
    ((connect_to_service svcA wT none "/base" 9).1 =
        Except.error ⟨IoErrorKind.timedOut, some 9⟩ ∧
      Event.launch none (some wT.ephemeralPath) ∈
        (connect_to_service svcA wT none "/base" 9).2 ∧
      killsOrWaits (connect_to_service svcA wT none "/base" 9).2 = 0 ∧
      (∀ c, Event.afterLiveness c ∉ (connect_to_service svcA wT none "/base" 9).2)) :=
  ⟨rfl,
    c5_liveness_timeout svcA wT none "/base" 9 ⟨IoErrorKind.other 2, none⟩
      [Event.rawConnect "/base/svc.sock"] 1 3 rfl rfl rfl rfl⟩

/-- Claim C7: when activation is entered and the launch fails after the
ephemeral listener was bound, the launch error is the result (the timed wait
never even starts) and the ephemeral socket file is still deleted on that
error path. -/
theorem c7_launch_failure_cleanup {Conn : Type} (svc : Service Conn)
    (w : ActivationWorld) (px : Option (List String)) (base : Path) (t : Duration)
    (e : IoError) (tr0 : List Event) (l : Listener) (el : IoError)
    (h1 : connect_to_running_service svc w.disc1 base = (Except.error e, tr0))
    (h2 : w.ul_bind = Except.ok l)
    (h3 : svc.run_service_command_raw px (some w.ephemeralPath) = Except.error el) :
    (connect_to_service svc w px base t).1 = Except.error el ∧
    Event.unlink w.ephemeralPath ∈ (connect_to_service svc w px base t).2 ∧
    Event.acceptWait ∉ (connect_to_service svc w px base t).2 := by
  have htr0 : (connect_to_running_service svc w.disc1 base).2 = tr0 := by rw [h1]
  rw [cts_of_launch_error svc w px base t e tr0 l el h1 h2 h3]
  refine ⟨rfl, by simp, ?_⟩
  intro hc
  rw [List.mem_append] at hc
  rcases hc with hc | hc
  · rw [← htr0] at hc
    exact acceptWait_not_mem_crs svc w.disc1 base hc
  · simp at hc

/-- Witness for claim C7 at a concrete input: `svcB`'s launch always
fails. -/
theorem c7_launch_failure_cleanup_witness :
    svcB.run_service_command_raw none (some wT.ephemeralPath) =
      Except.error ⟨IoErrorKind.other 9, none⟩ ∧
    ((connect_to_service svcB wT none "/base" 9).1 =
        Except.error ⟨IoErrorKind.other 9, none⟩ ∧
      Event.unlink wT.ephemeralPath ∈ (connect_to_service svcB wT none "/base" 9).2 ∧
      Event.acceptWait ∉ (connect_to_service svcB wT none "/base" 9).2) :=
  ⟨rfl,
    c7_launch_failure_cleanup svcB wT none "/base" 9 ⟨IoErrorKind.other 2, none⟩
      [Event.rawConnect "/base/svcB.sock"] 1 ⟨IoErrorKind.other 9, none⟩ rfl rfl rfl⟩

/-- Claim C10: after the liveness connection has been accepted, a failure
while shutting it down is the final result of `connect_to_service`: the hook
never runs and no second discovery connect is attempted. -/
theorem c10_shutdown_failure_propagates {Conn : Type} (svc : Service Conn)
    (w : ActivationWorld) (px : Option (List String)) (base : Path) (t : Duration)
    (e : IoError) (tr0 : List Event) (l : Listener) (ch : Child) (s : Stream)
    (es : IoError)
    (h1 : connect_to_running_service svc w.disc1 base = (Except.error e, tr0))
    (h2 : w.ul_bind = Except.ok l)
    (h3 : svc.run_service_command_raw px (some w.ephemeralPath) = Except.ok ch)
    (h4 : w.accept = some (Except.ok s))
    (h5 : w.us_shutdown s = Except.error es) :
    (connect_to_service svc w px base t).1 = Except.error es ∧
    (∀ c, Event.afterLiveness c ∉ (connect_to_service svc w px base t).2) ∧
    rawConnects (connect_to_service svc w px base t).2 = 1 := by
  have htr0 : (connect_to_running_service svc w.disc1 base).2 = tr0 := by rw [h1]
  rw [cts_of_shutdown_error svc w px base t e tr0 l ch s es h1 h2 h3 h4 h5]
  refine ⟨rfl, ?_, ?_⟩
  · intro c hc
    rw [List.mem_append] at hc
    rcases hc with hc | hc
    · rw [← htr0] at hc
      exact afterLiveness_not_mem_crs svc w.disc1 base c hc
    · simp at hc
  · have hr := rawConnects_crs svc w.disc1 base
    rw [htr0] at hr
    simp [rawConnects_append, rawConnects, hr]

/-- World where the first discovery fails, activation reaches the accepted
liveness connection, and shutting that connection down fails. -/
def wSd : ActivationWorld where
  disc1 := dErr
  ephemeralPath := "/tmp/temp-0000000000000004.sock"
  ul_bind := Except.ok 1
  accept := some (Except.ok 7)
  us_shutdown := fun _ => Except.error ⟨IoErrorKind.other 6, none⟩
  disc2 := dErr

/-- Witness for claim C10 at a concrete input. -/
theorem c10_shutdown_failure_propagates_witness :
    wSd.us_shutdown 7 = Except.error ⟨IoErrorKind.other 6, none⟩ ∧
    ((connect_to_service svcA wSd none "/base" 9).1 =
        Except.error ⟨IoErrorKind.other 6, none⟩ ∧
      (∀ c, Event.afterLiveness c ∉ (connect_to_service svcA wSd none "/base" 9).2) ∧
      rawConnects (connect_to_service svcA wSd none "/base" 9).2 = 1) :=
  ⟨rfl,
    c10_shutdown_failure_propagates svcA wSd none "/base" 9
      ⟨IoErrorKind.other 2, none⟩ [Event.rawConnect "/base/svc.sock"] 1 3 7
      ⟨IoErrorKind.other 6, none⟩ rfl rfl rfl rfl rfl⟩

/-- Claim C2 (code bug evaluation): the raw bind of the named socket path
fails, the bind error is propagated as-is, and yet the scoped path created
before the bind is released, attempting deletion of the pre-existing file at
the named path. -/
theorem c2_bind_failure_unlinks :
    (try_and_open_raw_socket svcB ⟨Except.error ⟨IoErrorKind.other 3, none⟩⟩ "/base"
        (fun l => Except.ok l)).1 = Except.error ⟨IoErrorKind.other 3, none⟩ ∧
    Event.unlink "/base/svcB.sock" ∈
      (try_and_open_raw_socket svcB ⟨Except.error ⟨IoErrorKind.other 3, none⟩⟩ "/base"
        (fun l => Except.ok l)).2 := by
  refine ⟨rfl, ?_⟩
  decide

/-- Claim C4: regardless of the liveness ping outcome and of the server
body's result, `run_server` releases the scoped socket path (deleting the
named socket file) and, whenever the body runs, returns the body's result
unchanged, with the release after the body; when the ping fails and
`die_with_parent_prefailure` is set, the error is returned and the socket
path is still released. -/
theorem c4_run_server_cleanup {Conn Wrapper T : Type}
    (self : ServerService Conn Wrapper) (w : RunWorld)
    (the_service_function : Wrapper → Service Conn → Except IoError T)
    (liveness_path : Option Path) (die_with_parent_prefailure : Bool) :
    Event.unlink self.socket_path ∈
      (run_server self w the_service_function liveness_path die_with_parent_prefailure).2 ∧
    (∀ p e, liveness_path = some p → w.us_connect_liveness = Except.error e →
      die_with_parent_prefailure = true →
      (run_server self w the_service_function liveness_path die_with_parent_prefailure).1 =
        Except.error e ∧
      Event.runBody ∉
        (run_server self w the_service_function liveness_path die_with_parent_prefailure).2) ∧
    ((liveness_path = none ∨ (∃ s, w.us_connect_liveness = Except.ok s) ∨
        die_with_parent_prefailure = false) →
      (run_server self w the_service_function liveness_path die_with_parent_prefailure).1 =
        the_service_function self.unix_listener_socket self.service ∧
      ∃ tr1,
        (run_server self w the_service_function liveness_path die_with_parent_prefailure).2 =
          tr1 ++ [Event.runBody, Event.unlink self.socket_path]) := by
  cases liveness_path with
  | none =>
    refine ⟨by simp [run_server], ?_, ?_⟩
    · intro p e hp
      cases hp
    · intro _
      exact ⟨rfl, [], rfl⟩
  | some p =>
    cases hcl : w.us_connect_liveness with
    | ok s =>
      refine ⟨by simp [run_server, hcl], ?_, ?_⟩
      · intro q e hq he
        cases he
      · intro _
        refine ⟨?_, [Event.rawConnect p, Event.shutdownStream s], ?_⟩ <;>
          simp [run_server, hcl]
    | error e0 =>
      cases die_with_parent_prefailure with
      | true =>
        refine ⟨by simp [run_server, hcl], ?_, ?_⟩
        · intro q e hq he _
          injection he with h
          subst h
          exact ⟨by simp [run_server, hcl], by simp [run_server, hcl]⟩
        · intro hd
          rcases hd with hd | ⟨s, hs⟩ | hd
          · cases hd
          · cases hs
          · cases hd
      | false =>
        refine ⟨by simp [run_server, hcl], ?_, ?_⟩
        · intro q e hq he hflag
          cases hflag
        · intro _
          refine ⟨?_, [Event.rawConnect p], ?_⟩ <;> simp [run_server, hcl]

/-- The server service and worlds used by the hosting witnesses. -/
def sssB : ServerService Nat Nat where
  service := svcB
  unix_listener_socket := 11
  socket_path := "/base/svcB.sock"

/-- A server body returning a fixed success value. -/
def bodyOk : Nat → Service Nat → Except IoError Nat := fun _ _ => Except.ok 0

/-- Hosting world whose liveness ping connect fails. -/
def rwErr : RunWorld where
  us_connect_liveness := Except.error ⟨IoErrorKind.other 8, none⟩
  us_shutdown := fun _ => Except.ok ()

/-- Hosting world whose liveness ping connect succeeds. -/
def rwOk : RunWorld where
  us_connect_liveness := Except.ok 4
  us_shutdown := fun _ => Except.ok ()

/-- Witness for claim C4 at a concrete input: ping failure with
`die_with_parent_prefailure` set still releases the socket path. -/
theorem c4_run_server_cleanup_witness :
    Event.unlink sssB.socket_path ∈
      (run_server sssB rwErr bodyOk (some "/tmp/live.sock") true).2 ∧
    ((run_server sssB rwErr bodyOk (some "/tmp/live.sock") true).1 =
        Except.error ⟨IoErrorKind.other 8, none⟩ ∧
      Event.runBody ∉ (run_server sssB rwErr bodyOk (some "/tmp/live.sock") true).2) :=
  ⟨(c4_run_server_cleanup sssB rwErr bodyOk (some "/tmp/live.sock") true).1,
    (c4_run_server_cleanup sssB rwErr bodyOk (some "/tmp/live.sock") true).2.1
      "/tmp/live.sock" ⟨IoErrorKind.other 8, none⟩ rfl rfl rfl⟩

/-- Claim C8: with a liveness path, `run_server` attempts the connect to it
exactly once; on failure the error is returned (and the body never runs)
exactly when `die_with_parent_prefailure` is set, otherwise the body runs
anyway; and beyond connect success nothing of the ping is consulted: the
result is independent of the shutdown outcome. -/
theorem c8_liveness_ping_once {Conn Wrapper T : Type}
    (self : ServerService Conn Wrapper) (w : RunWorld)
    (the_service_function : Wrapper → Service Conn → Except IoError T)
    (p : Path) (die_with_parent_prefailure : Bool) :
    rawConnects (run_server self w the_service_function (some p) die_with_parent_prefailure).2 = 1 ∧
    (∀ e, w.us_connect_liveness = Except.error e →
      (die_with_parent_prefailure = true →
        (run_server self w the_service_function (some p) die_with_parent_prefailure).1 =
          Except.error e ∧
        Event.runBody ∉
          (run_server self w the_service_function (some p) die_with_parent_prefailure).2) ∧
      (die_with_parent_prefailure = false →
        (run_server self w the_service_function (some p) die_with_parent_prefailure).1 =
          the_service_function self.unix_listener_socket self.service ∧
        Event.runBody ∈
          (run_server self w the_service_function (some p) die_with_parent_prefailure).2)) ∧
    (∀ g : Stream → Except IoError Unit,
      run_server self ⟨w.us_connect_liveness, g⟩ the_service_function (some p)
          die_with_parent_prefailure =
        run_server self w the_service_function (some p) die_with_parent_prefailure) := by
  refine ⟨?_, ?_, ?_⟩
  · cases hcl : w.us_connect_liveness with
    | ok s => simp [run_server, hcl, rawConnects]
    | error e =>
      cases die_with_parent_prefailure <;> simp [run_server, hcl, rawConnects]
  · intro e he
    constructor
    · intro hflag
      subst hflag
      refine ⟨by simp [run_server, he], ?_⟩
      simp [run_server, he]
    · intro hflag
      subst hflag
      refine ⟨by simp [run_server, he], ?_⟩
      simp [run_server, he]
  · intro g
    cases hcl : w.us_connect_liveness with
    | ok s => simp [run_server, hcl]
    | error e =>
      cases die_with_parent_prefailure <;> simp [run_server, hcl]

/-- Witness for claim C8 at a concrete input. -/
theorem c8_liveness_ping_once_witness :
    rawConnects (run_server sssB rwOk bodyOk (some "/tmp/live.sock") false).2 = 1 ∧
    (∀ g : Stream → Except IoError Unit,
      run_server sssB ⟨rwOk.us_connect_liveness, g⟩ bodyOk (some "/tmp/live.sock") false =
        run_server sssB rwOk bodyOk (some "/tmp/live.sock") false) :=
  ⟨(c8_liveness_ping_once sssB rwOk bodyOk "/tmp/live.sock" false).1,
    (c8_liveness_ping_once sssB rwOk bodyOk "/tmp/live.sock" false).2.2⟩

/-- Each value below 16 maps to a lowercase hexadecimal digit character. -/
theorem hexDigitChar_mem_of_lt (d : Nat) (hd : d < 16) :
    hexDigitChar d ∈ hexDigitChars := by
  interval_cases d <;> decide

/-- The formatted hex field always has exactly 16 characters. -/
theorem hex16_length (n : Nat) : (hex16 n).length = 16 := by
  simp [hex16, String.length]

/-- Every character of the formatted hex field is a lowercase hex digit. -/
theorem hex16_chars (n : Nat) : ∀ c ∈ (hex16 n).data, c ∈ hexDigitChars := by
  intro c hc
  simp only [hex16, List.mem_map, List.mem_range] at hc
  obtain ⟨i, _, rfl⟩ := hc
  exact hexDigitChar_mem_of_lt _ (Nat.mod_lt _ (by norm_num))

/-- Claim C9: for every 64-bit value drawn from the generator, the produced
path is the system temp directory joined with `temp-` followed by exactly 16
lowercase hexadecimal digits and `.sock`. -/
theorem c9_sockpath_form (temp_dir : Path) (r : Nat) (_h : r < 2 ^ 64) :
    get_random_sockpath temp_dir r =
      temp_dir ++ "/" ++ ("temp-" ++ hex16 r ++ ".sock") ∧
    (hex16 r).length = 16 ∧
    ∀ c ∈ (hex16 r).data, c ∈ hexDigitChars :=
  ⟨rfl, hex16_length r, hex16_chars r⟩

/-- Witness for claim C9 at a concrete input. -/
theorem c9_sockpath_form_witness :
    0 < 2 ^ 64 ∧
    (get_random_sockpath "/tmp" 0 = "/tmp" ++ "/" ++ ("temp-" ++ hex16 0 ++ ".sock") ∧
      (hex16 0).length = 16 ∧
      ∀ c ∈ (hex16 0).data, c ∈ hexDigitChars) :=
  ⟨by norm_num, c9_sockpath_form "/tmp" 0 (by norm_num)⟩

end Suss
